import Mathlib

/-!
Shallow embedding of the spacesync-front client (src/src/services/api.ts,
src/src/AuthContext.tsx, src/src/TaskSubmissionPage.tsx) and proofs about it.

Network effects are modelled by an explicit outcome value handed to each
operation: a `fetch` call either throws (network error, or a failed body
parse folded into the same thrown path the `catch` sees) or yields a
response with an `ok` flag and a parsed JSON body. Each operation also
reports the number of `fetch` invocations it performed, so that claims of
the form "no network call is made" are statable. JavaScript `throw` is
modelled with `Except`: a function that may propagate an exception returns
`Except JsError α`, and a `try/catch` that swallows the exception is the
explicit `match` on that value.
-/

namespace SpaceSync

/-- JavaScript falsy-default idiom `s || d` on a string: the empty string is
falsy, every other string is truthy. -/
def jsOrStr (s d : String) : String :=
  if s = "" then d else s

/-- JavaScript `m || d` where `m` is a possibly-absent string field of a
parsed JSON body: `undefined`/`null` and the empty string fall back to `d`. -/
def jsOrOpt (m : Option String) (d : String) : String :=
  match m with
  | none => d
  | some s => jsOrStr s d

/-- JavaScript truthiness of a `string | null` value: `null` and the empty
string are falsy. -/
def jsTruthyStr : Option String → Bool
  | none => false
  | some s => s != ""

/-- Embedding of `String.prototype.endsWith`, phrased on the underlying
character lists so that it evaluates by kernel reduction. -/
def jsEndsWith (s suff : String) : Bool :=
  suff.data.isSuffixOf s.data

/-- Embedding of `String.prototype.trim`: strips leading and trailing
whitespace characters (the ASCII whitespace the client ever meets). -/
def jsTrim (s : String) : String :=
  ⟨((s.data.dropWhile Char.isWhitespace).reverse.dropWhile Char.isWhitespace).reverse⟩

/-- Task status enumeration from `api.ts` / `TaskSubmissionPage.tsx`. -/
inductive TaskStatus where
  | pending
  | processing
  | completed
  | failed
deriving DecidableEq, Repr

/-- The `Task` record shape shared by `api.ts` and `TaskSubmissionPage.tsx`.
The opaque `result?: any` field is modelled as an optional string, which is
all the client logic ever needs of it. -/
structure Task where
  id : String
  status : TaskStatus
  code : String
  fileName : Option String := none
  estimatedCompletionTime : Option String := none
  result : Option String := none
  createdAt : String
deriving DecidableEq, Repr

/-- The `LoginResponse` shape of `api.ts`. -/
structure LoginResponse where
  success : Bool
  token : Option String := none
  message : Option String := none
deriving DecidableEq, Repr

/-- The `TokenValidationResponse` shape of `api.ts`. -/
structure TokenValidationResponse where
  valid : Bool
deriving DecidableEq, Repr

/-- The `StatusResponse` shape of `api.ts`. -/
structure StatusResponse where
  availablePhones : Int
  busyPhones : Int
  averageProcessingTime : Int
deriving DecidableEq, Repr

/-- A thrown JavaScript `Error`, reduced to its `message`. -/
structure JsError where
  message : String
deriving DecidableEq, Repr

/-- Outcome of one `fetch` round trip whose successful body parses to `β`:
either the fetch (or the body parse) throws with some error message, or a
response arrives carrying its `ok` flag and parsed body. -/
inductive NetResult (β : Type) where
  | netError (message : String)
  | reply (ok : Bool) (body : β)
deriving DecidableEq, Repr

/-- A network outcome counts as a failure when the fetch threw or the
response status was not ok. -/
def NetResult.failed {β : Type} : NetResult β → Bool
  | .netError _ => true
  | .reply ok _ => !ok

/-- Embedding of `apiService.login` (api.ts lines 34-55). The `try` block
awaits the JSON body, throws `data.message || 'Login failed'` on a non-ok
status, and returns the body otherwise; the `catch` swallows any thrown
error and returns `{success:false, message: error.message || 'Login failed'}`.
The second component counts `fetch` invocations. -/
def login (net : NetResult LoginResponse) : Except JsError LoginResponse × Nat :=
  let tryResult : Except JsError LoginResponse × Nat :=
    match net with
    | .netError m => (.error ⟨m⟩, 1)
    | .reply ok data =>
      if ok then (.ok data, 1)
      else (.error ⟨jsOrOpt data.message "Login failed"⟩, 1)
  match tryResult with
  | (.error e, n) =>
    (.ok { success := false, token := none, message := some (jsOrStr e.message "Login failed") }, n)
  | r => r

/-- Embedding of `apiService.validateToken` (api.ts lines 57-80). A falsy
stored token (absent, or the empty string) returns invalid before any
fetch; otherwise the response `ok` flag decides validity, and the `catch`
turns a thrown error into invalid. -/
def validateToken (stored : Option String) (net : NetResult Unit) :
    Except JsError TokenValidationResponse × Nat :=
  let tryResult : Except JsError TokenValidationResponse × Nat :=
    if jsTruthyStr stored = false then (.ok ⟨false⟩, 0)
    else
      match net with
      | .netError m => (.error ⟨m⟩, 1)
      | .reply ok _ => if ok then (.ok ⟨true⟩, 1) else (.ok ⟨false⟩, 1)
  match tryResult with
  | (.error _, n) => (.ok ⟨false⟩, n)
  | r => r

/-- Embedding of `apiService.getStatus` (api.ts lines 82-107): a non-ok
response throws `'Failed to fetch status'`, and the `catch` swallows any
thrown error and returns the zeroed fallback record. -/
def getStatus (net : NetResult StatusResponse) : Except JsError StatusResponse × Nat :=
  let tryResult : Except JsError StatusResponse × Nat :=
    match net with
    | .netError m => (.error ⟨m⟩, 1)
    | .reply ok data =>
      if ok then (.ok data, 1) else (.error ⟨"Failed to fetch status"⟩, 1)
  match tryResult with
  | (.error _, n) =>
    (.ok { availablePhones := 0, busyPhones := 0, averageProcessingTime := 0 }, n)
  | r => r

/-- Embedding of `apiService.getTasks` (api.ts lines 109-129): a non-ok
response throws `'Failed to fetch tasks'`, and the `catch` swallows any
thrown error and returns the empty list. -/
def getTasks (net : NetResult (List Task)) : Except JsError (List Task) × Nat :=
  let tryResult : Except JsError (List Task) × Nat :=
    match net with
    | .netError m => (.error ⟨m⟩, 1)
    | .reply ok data =>
      if ok then (.ok data, 1) else (.error ⟨"Failed to fetch tasks"⟩, 1)
  match tryResult with
  | (.error _, n) => (.ok [], n)
  | r => r

/-- A selected browser `File`, reduced to the three attributes the client
reads: `name`, `size` (bytes) and MIME `type`. -/
structure JsFile where
  name : String
  size : Nat
  type : String
deriving DecidableEq, Repr

/-- Network outcome of the task-submission POST: a thrown fetch error, an
ok response whose body parses to the created task, or a non-ok response
whose body parses to an object with an optional `message`. -/
inductive SubmitNet where
  | netError (message : String)
  | okReply (task : Task)
  | errReply (message : Option String)
deriving DecidableEq, Repr

/-- A submission outcome counts as a failure unless it is an ok reply. -/
def SubmitNet.failed : SubmitNet → Bool
  | .okReply _ => false
  | .netError _ => true
  | .errReply _ => true

/-- Embedding of `apiService.submitTask` (api.ts lines 131-162). The
multipart body (the `code` field when `code.trim()` is truthy, the file
when attached) travels into the abstracted network; a non-ok response
throws `errorData.message || 'Failed to submit task'`, and the `catch`
rethrows whatever was thrown, so failures propagate to the caller. -/
def submitTask (code : String) (file : Option JsFile) (net : SubmitNet) :
    Except JsError Task × Nat :=
  let tryResult : Except JsError Task × Nat :=
    match net with
    | .netError m => (.error ⟨m⟩, 1)
    | .okReply t => (.ok t, 1)
    | .errReply m => (.error ⟨jsOrOpt m "Failed to submit task"⟩, 1)
  match tryResult with
  | (.error e, n) => (.error e, n)
  | r => r

/-- Embedding of the derived flag `isAuthenticated: !!userToken` provided
by `AuthProvider` (AuthContext.tsx lines 82-92): JavaScript double negation
of a `string | null` value. -/
def isAuthenticatedOf (userToken : Option String) : Bool :=
  jsTruthyStr userToken

/-- The 5 MiB file-size limit of TaskSubmissionPage.tsx line 32. -/
def MAX_FILE_SIZE : Nat := 5 * 1024 * 1024

/-- The fixed MIME allow-list of TaskSubmissionPage.tsx line 78. -/
def allowedTypes : List String :=
  ["text/javascript", "application/javascript", "application/json", "text/plain"]

/-- The slice of the view state that `handleFileChange` reads and writes:
the `file` and `error` `useState` cells. -/
structure FileState where
  file : Option JsFile
  error : Option String
deriving DecidableEq, Repr

/-- Embedding of `handleFileChange` (TaskSubmissionPage.tsx lines 68-86).
`selected` is `e.target.files?.[0]`; an oversized file or a file outside
the allow-list (with no `.js` extension fallback) only sets the error,
leaving the previously selected file untouched, while an accepted file is
stored and the error cleared. -/
def handleFileChange (selected : Option JsFile) (st : FileState) : FileState :=
  match selected with
  | none => st
  | some f =>
    if f.size > MAX_FILE_SIZE then
      { st with error := some ("File size exceeds the maximum limit of "
          ++ toString (MAX_FILE_SIZE / 1024 / 1024) ++ "MB") }
    else if !(allowedTypes.contains f.type) && !(jsEndsWith f.name ".js") then
      { st with error := some "Please upload a JavaScript file (.js) or JSON data file" }
    else
      { file := some f, error := none }

/-- The acceptance condition of the allow-list check in `handleFileChange`:
the MIME type is allowed or the filename ends in `.js`. -/
def fileAllowedType (f : JsFile) : Bool :=
  allowedTypes.contains f.type || jsEndsWith f.name ".js"

/-- The slice of the view state that `handleSubmit` reads and writes: the
`code`, `file`, `error`, `userTasks` and `isSubmitting` `useState` cells. -/
structure SubmitState where
  code : String
  file : Option JsFile
  error : Option String
  tasks : List Task
  isSubmitting : Bool
deriving DecidableEq, Repr

/-- Embedding of `handleSubmit` (TaskSubmissionPage.tsx lines 89-119).
With falsy trimmed code and no file it sets the validation error and
returns before any network activity; otherwise it calls
`apiService.submitTask`, prepends the returned task and clears the form on
success, or surfaces `err.message || 'Failed to submit task. Please try
again.'` on failure, with `isSubmitting` reset in the `finally` block.
The second component counts `fetch` invocations. -/
def handleSubmit (st : SubmitState) (net : SubmitNet) : SubmitState × Nat :=
  if jsTrim st.code = "" && st.file.isNone then
    ({ st with error := some "Please provide JavaScript code or attach a file" }, 0)
  else
    match submitTask st.code st.file net with
    | (.ok taskData, n) =>
      ({ st with tasks := taskData :: st.tasks, code := "", file := none,
                 error := none, isSubmitting := false }, n)
    | (.error e, n) =>
      ({ st with error := some (jsOrStr e.message "Failed to submit task. Please try again."),
                 isSubmitting := false }, n)

/-- Phrasing of a nonnegative whole-minute count, inlined in
`formatEstimatedTime` (TaskSubmissionPage.tsx lines 135-141); `hours` and
`mins` are the locals of lines 139-140 written as `diffMins / 60` and
`diffMins % 60`. -/
def formatMins (diffMins : Nat) : String :=
  if diffMins < 1 then "Less than a minute"
  else if diffMins = 1 then "1 minute"
  else if diffMins < 60 then toString diffMins ++ " minutes"
  else
    toString (diffMins / 60) ++ " hour" ++ (if diffMins / 60 > 1 then "s" else "") ++ " "
      ++ (if diffMins % 60 > 0 then
            toString (diffMins % 60) ++ " minute" ++ (if diffMins % 60 > 1 then "s" else "")
          else "")

/-- Core of `formatEstimatedTime` once a date has been parsed
(TaskSubmissionPage.tsx lines 125-141): timestamps are epoch milliseconds,
a past estimate short-circuits, and `diffMins` is
`Math.round(diffMs / 60000)`, written for a nonnegative integer `diffMs`
as the half-up rounding `(2 * diffMs + 60000) / 120000` in integer
division. -/
def formatFromDiff (estMs now : Int) : String :=
  if estMs < now then "Processing is taking longer than expected"
  else formatMins ((2 * (estMs - now).toNat + 60000) / 120000)

/-- Embedding of `formatEstimatedTime` (TaskSubmissionPage.tsx lines
122-142). The guard `!task.estimatedCompletionTime` is JavaScript
truthiness, so an absent field and the empty string both yield
`'Unknown'`; `parseDate` abstracts `new Date(s).getTime()` and `now` is
the current epoch-millisecond time. -/
def formatEstimatedTime (parseDate : String → Int) (now : Int) (task : Task) : String :=
  match task.estimatedCompletionTime with
  | none => "Unknown"
  | some s => if s = "" then "Unknown" else formatFromDiff (parseDate s) now

/-- C1: `formatEstimatedTime` rounds the remaining duration to whole
minutes with `Math.round` half-up semantics, not truncation: an estimate
exactly 90 seconds (90000 ms) after `now` renders `"2 minutes"`; writing
`m` for the remaining milliseconds, a rounded count of exactly 1 (that is,
30000 ≤ m < 90000) renders `"1 minute"`, a rounded count `N` with
2 ≤ N < 60 renders `"N minutes"`, and a rounded count below 1 (m < 30000)
renders `"Less than a minute"`. -/
theorem formatEstimatedTime_roundHalfUp
    (parseDate : String → Int) (now : Int) (t : Task) (s : String)
    (hs : t.estimatedCompletionTime = some s) (hne : s ≠ "")
    (hfut : now ≤ parseDate s) :
    (parseDate s = now + 90000 →
      formatEstimatedTime parseDate now t = "2 minutes") ∧
    (30000 ≤ (parseDate s - now).toNat → (parseDate s - now).toNat < 90000 →
      formatEstimatedTime parseDate now t = "1 minute") ∧
    (∀ N : Nat, 2 ≤ N → N < 60 →
      60000 * N ≤ (parseDate s - now).toNat + 30000 →
      (parseDate s - now).toNat < 60000 * N + 30000 →
      formatEstimatedTime parseDate now t = toString N ++ " minutes") ∧
    ((parseDate s - now).toNat < 30000 →
      formatEstimatedTime parseDate now t = "Less than a minute") := by
  have hnotlt : ¬ parseDate s < now := not_lt.mpr hfut
  simp only [formatEstimatedTime, hs]
  rw [if_neg hne, formatFromDiff, if_neg hnotlt]
  refine ⟨?_, ?_, ?_, ?_⟩
  · intro h
    have hm : (parseDate s - now).toNat = 90000 := by omega
    rw [hm]
    decide
  · intro h1 h2
    have hd : (2 * (parseDate s - now).toNat + 60000) / 120000 = 1 := by omega
    rw [hd]
    decide
  · intro N hN2 hN60 hlo hhi
    have hd : (2 * (parseDate s - now).toNat + 60000) / 120000 = N := by omega
    rw [hd, formatMins, if_neg (by omega), if_neg (by omega), if_pos (by omega)]
  · intro h
    have hd : (2 * (parseDate s - now).toNat + 60000) / 120000 = 0 := by omega
    rw [hd]
    decide

/-- Witness for C1 at concrete inputs: an estimate 90000 ms after time 0
renders `"2 minutes"`, and one 150000 ms out renders `"3 minutes"` via the
general `N`-minutes clause with `N = 3`. -/
theorem formatEstimatedTime_roundHalfUp_witness :
    formatEstimatedTime (fun _ => (90000 : Int)) 0
        ⟨"w1", .processing, "", none, some "e", none, "c"⟩ = "2 minutes" ∧
    formatEstimatedTime (fun _ => (150000 : Int)) 0
        ⟨"w2", .processing, "", none, some "e", none, "c"⟩ = "3 minutes" :=
  ⟨(formatEstimatedTime_roundHalfUp (fun _ => (90000 : Int)) 0
      ⟨"w1", .processing, "", none, some "e", none, "c"⟩ "e" rfl (by decide) (by decide)).1 rfl,
   (formatEstimatedTime_roundHalfUp (fun _ => (150000 : Int)) 0
      ⟨"w2", .processing, "", none, some "e", none, "c"⟩ "e" rfl (by decide) (by decide)).2.2.1
     3 (by decide) (by decide) (by decide) (by decide)⟩

/-- C10: a task whose `estimatedCompletionTime` is absent, or the empty
string, renders `"Unknown"` for every current time and every date parser:
the guard is JavaScript truthiness, so both falsy values short-circuit
before the current time is consulted. -/
theorem formatEstimatedTime_unknown (parseDate : String → Int) (now : Int) (t : Task) :
    (t.estimatedCompletionTime = none → formatEstimatedTime parseDate now t = "Unknown") ∧
    (t.estimatedCompletionTime = some "" → formatEstimatedTime parseDate now t = "Unknown") := by
  constructor <;> intro h <;> simp [formatEstimatedTime, h]

/-- Witness for C10: both falsy shapes of the field at concrete tasks and
times yield `"Unknown"`. -/
theorem formatEstimatedTime_unknown_witness :
    formatEstimatedTime (fun _ => (0 : Int)) 5
        ⟨"w3", .processing, "", none, none, none, "c"⟩ = "Unknown" ∧
    formatEstimatedTime (fun _ => (0 : Int)) 7
        ⟨"w4", .processing, "", none, some "", none, "c"⟩ = "Unknown" :=
  ⟨(formatEstimatedTime_unknown (fun _ => (0 : Int)) 5
      ⟨"w3", .processing, "", none, none, none, "c"⟩).1 rfl,
   (formatEstimatedTime_unknown (fun _ => (0 : Int)) 7
      ⟨"w4", .processing, "", none, some "", none, "c"⟩).2 rfl⟩

/-- C2 counterexample: the empty-string token is non-null, yet the derived
flag computed by `AuthProvider` as `!!userToken` is false, so
`isAuthenticated = (token != null)` fails at `token = ""`. -/
theorem isAuthenticatedOf_empty_string_cex :
    (some "" : Option String) ≠ none ∧ isAuthenticatedOf (some "") = false := by
  decide

/-- C2 amended: `isAuthenticated` is true if and only if the held token is
non-null AND non-empty (JavaScript truthiness of `!!userToken`), rather
than merely non-null. -/
theorem isAuthenticatedOf_iff_truthy (t : Option String) :
    isAuthenticatedOf t = true ↔ (t ≠ none ∧ t ≠ some "") := by
  cases t with
  | none => simp [isAuthenticatedOf, jsTruthyStr]
  | some s => simp [isAuthenticatedOf, jsTruthyStr]

/-- C3: each of `login`, `validateToken`, `getStatus` and `getTasks`
returns its safe default on every failure (thrown network error or non-ok
status) and never propagates an exception: `login` yields
`{success:false, message}`, `validateToken` yields `{valid:false}`,
`getStatus` yields the zeroed record, `getTasks` yields the empty list,
and all four always return on the `ok` side of the exception model. -/
theorem apiService_failures_swallowed
    (nl : NetResult LoginResponse) (stored : Option String) (nv : NetResult Unit)
    (ns : NetResult StatusResponse) (nt : NetResult (List Task)) :
    (nl.failed = true →
      ∃ msg, (login nl).1 = .ok ⟨false, none, some msg⟩) ∧
    (∃ r, (login nl).1 = .ok r) ∧
    (nv.failed = true → (validateToken stored nv).1 = .ok ⟨false⟩) ∧
    (∃ r, (validateToken stored nv).1 = .ok r) ∧
    (ns.failed = true →
      (getStatus ns).1 = .ok ⟨0, 0, 0⟩) ∧
    (∃ r, (getStatus ns).1 = .ok r) ∧
    (nt.failed = true → (getTasks nt).1 = .ok []) ∧
    (∃ r, (getTasks nt).1 = .ok r) := by
  refine ⟨?_, ?_, ?_, ?_, ?_, ?_, ?_, ?_⟩
  · rcases nl with m | ⟨ok, body⟩
    · exact fun _ => ⟨jsOrStr m "Login failed", rfl⟩
    · cases ok
      · exact fun _ => ⟨jsOrStr (jsOrOpt body.message "Login failed") "Login failed", rfl⟩
      · intro h
        simp [NetResult.failed] at h
  · rcases nl with m | ⟨ok, body⟩
    · exact ⟨_, rfl⟩
    · cases ok <;> exact ⟨_, rfl⟩
  · intro h
    cases hst : jsTruthyStr stored
    · simp [validateToken, hst]
    · rcases nv with m | ⟨ok, u⟩
      · simp [validateToken, hst]
      · cases ok
        · simp [validateToken, hst]
        · simp [NetResult.failed] at h
  · cases hst : jsTruthyStr stored
    · exact ⟨⟨false⟩, by simp [validateToken, hst]⟩
    · rcases nv with m | ⟨ok, u⟩
      · exact ⟨⟨false⟩, by simp [validateToken, hst]⟩
      · cases ok
        · exact ⟨⟨false⟩, by simp [validateToken, hst]⟩
        · exact ⟨⟨true⟩, by simp [validateToken, hst]⟩
  · rcases ns with m | ⟨ok, body⟩
    · exact fun _ => rfl
    · cases ok
      · exact fun _ => rfl
      · intro h
        simp [NetResult.failed] at h
  · rcases ns with m | ⟨ok, body⟩
    · exact ⟨_, rfl⟩
    · cases ok <;> exact ⟨_, rfl⟩
  · rcases nt with m | ⟨ok, body⟩
    · exact fun _ => rfl
    · cases ok
      · exact fun _ => rfl
      · intro h
        simp [NetResult.failed] at h
  · rcases nt with m | ⟨ok, body⟩
    · exact ⟨_, rfl⟩
    · cases ok <;> exact ⟨_, rfl⟩

/-- Witness for C3 at concrete failing outcomes: a thrown login fetch, a
thrown validation fetch with a stored token, a non-ok status response and
a thrown task-list fetch each produce their safe default. -/
theorem apiService_failures_swallowed_witness :
    (∃ msg, (login (.netError "boom")).1 = .ok ⟨false, none, some msg⟩) ∧
    (validateToken (some "tok") (.netError "boom")).1 = .ok ⟨false⟩ ∧
    (getStatus (.reply false ⟨1, 2, 3⟩)).1 = .ok ⟨0, 0, 0⟩ ∧
    (getTasks (.netError "down")).1 = .ok [] := by
  obtain ⟨h1, _, h3, _, h5, _, h7, _⟩ :=
    apiService_failures_swallowed (.netError "boom") (some "tok") (.netError "boom")
      (.reply false ⟨1, 2, 3⟩) (.netError "down")
  exact ⟨h1 rfl, h3 rfl, h5 rfl, h7 rfl⟩

/-- C4: `submitTask` propagates every failure to its caller: a non-ok
response raises an error whose message is the response body message when
that is present (and non-empty), the generic `'Failed to submit task'`
otherwise; a thrown fetch error is rethrown as-is; and no failing outcome
ever returns a value instead of an error. -/
theorem submitTask_propagates_failure
    (code : String) (file : Option JsFile) (m : String) (net : SubmitNet) :
    (m ≠ "" → submitTask code file (.errReply (some m)) = (.error ⟨m⟩, 1)) ∧
    (submitTask code file (.errReply none) = (.error ⟨"Failed to submit task"⟩, 1)) ∧
    (submitTask code file (.netError m) = (.error ⟨m⟩, 1)) ∧
    (net.failed = true → ∃ e, (submitTask code file net).1 = .error e) := by
  refine ⟨?_, rfl, rfl, ?_⟩
  · intro hm
    simp [submitTask, jsOrOpt, jsOrStr, hm]
  · intro h
    rcases net with mm | t | mo
    · exact ⟨_, rfl⟩
    · simp [SubmitNet.failed] at h
    · exact ⟨_, rfl⟩

/-- Witness for C4 at concrete inputs: a non-ok response with body message
`"bad"` raises that message, and the failing-outcome clause applies to the
same outcome. -/
theorem submitTask_propagates_failure_witness :
    submitTask "x" none (.errReply (some "bad")) = (.error ⟨"bad"⟩, 1) ∧
    (∃ e, (submitTask "x" none (.errReply (some "bad" : Option String))).1 = .error e) := by
  obtain ⟨h1, _, _, h4⟩ :=
    submitTask_propagates_failure "x" none "bad" (.errReply (some "bad"))
  exact ⟨h1 (by decide), h4 rfl⟩

/-- C5: the file-size boundary is inclusive at 5 MiB: every file of
5,242,881 bytes or more is rejected with the size-limit message and the
previously selected file is left untouched, while a file of exactly
5,242,880 bytes with an allowed type is accepted. -/
theorem handleFileChange_size_boundary (f : JsFile) (st : FileState) :
    (5242881 ≤ f.size →
      handleFileChange (some f) st
        = { st with error := some "File size exceeds the maximum limit of 5MB" }) ∧
    (f.size = 5242880 → fileAllowedType f = true →
      handleFileChange (some f) st = ⟨some f, none⟩) := by
  constructor
  · intro hbig
    rw [handleFileChange, if_pos (by simp [MAX_FILE_SIZE]; omega)]
    have hmsg : "File size exceeds the maximum limit of "
        ++ toString (MAX_FILE_SIZE / 1024 / 1024) ++ "MB"
        = "File size exceeds the maximum limit of 5MB" := by decide
    rw [hmsg]
  · intro hsize hallow
    have hcontains : (allowedTypes.contains f.type || jsEndsWith f.name ".js") = true := hallow
    rw [handleFileChange, if_neg (by simp [MAX_FILE_SIZE, hsize]),
      if_neg (by simp only [Bool.not_eq_true]; rw [← Bool.not_or, hcontains]; rfl)]

/-- Witness for C5 at concrete files: a 5,242,881-byte file is rejected
with the size-limit message, and a 5,242,880-byte `text/plain` file is
accepted. -/
theorem handleFileChange_size_boundary_witness :
    handleFileChange (some ⟨"big.js", 5242881, "text/plain"⟩) ⟨none, none⟩
      = ⟨none, some "File size exceeds the maximum limit of 5MB"⟩ ∧
    handleFileChange (some ⟨"ok.js", 5242880, "text/plain"⟩) ⟨none, none⟩
      = ⟨some ⟨"ok.js", 5242880, "text/plain"⟩, none⟩ :=
  ⟨(handleFileChange_size_boundary ⟨"big.js", 5242881, "text/plain"⟩ ⟨none, none⟩).1
     (by decide),
   (handleFileChange_size_boundary ⟨"ok.js", 5242880, "text/plain"⟩ ⟨none, none⟩).2
     rfl (by decide)⟩

/-- C6: for a file within the size limit, `handleFileChange` accepts it
(stores it and clears the error) exactly when its MIME type is one of
`text/javascript`, `application/javascript`, `application/json`,
`text/plain`, or its name ends in `.js`; otherwise it sets the type error
and leaves the selected file untouched. The handler contains no network
operation, so a rejection performs no server call. -/
theorem handleFileChange_type_allowlist (f : JsFile) (st : FileState)
    (hsize : f.size ≤ MAX_FILE_SIZE) :
    (fileAllowedType f = true → handleFileChange (some f) st = ⟨some f, none⟩) ∧
    (fileAllowedType f = false →
      handleFileChange (some f) st
        = ⟨st.file, some "Please upload a JavaScript file (.js) or JSON data file"⟩) ∧
    (fileAllowedType f = true ↔
      (f.type = "text/javascript" ∨ f.type = "application/javascript" ∨
       f.type = "application/json" ∨ f.type = "text/plain" ∨
       jsEndsWith f.name ".js" = true)) := by
  refine ⟨?_, ?_, ?_⟩
  · intro hallow
    have hcontains : (allowedTypes.contains f.type || jsEndsWith f.name ".js") = true := hallow
    rw [handleFileChange, if_neg (by omega),
      if_neg (by simp only [Bool.not_eq_true]; rw [← Bool.not_or, hcontains]; rfl)]
  · intro hreject
    have hcontains : (allowedTypes.contains f.type || jsEndsWith f.name ".js") = false := hreject
    rw [handleFileChange, if_neg (by omega),
      if_pos (by rw [← Bool.not_or, hcontains]; rfl)]
  · rw [fileAllowedType]
    simp [allowedTypes]
    tauto

/-- Witness for C6 at concrete files: `script.js` with an empty MIME type
is accepted through the extension fallback, `data.csv` with type
`text/csv` is rejected with the type error, and the allow-list equivalence
holds at the accepted file. -/
theorem handleFileChange_type_allowlist_witness :
    handleFileChange (some ⟨"script.js", 100, ""⟩) ⟨none, none⟩
      = ⟨some ⟨"script.js", 100, ""⟩, none⟩ ∧
    handleFileChange (some ⟨"data.csv", 200, "text/csv"⟩) ⟨none, none⟩
      = ⟨none, some "Please upload a JavaScript file (.js) or JSON data file"⟩ :=
  ⟨(handleFileChange_type_allowlist ⟨"script.js", 100, ""⟩ ⟨none, none⟩ (by decide)).1
     (by decide),
   (handleFileChange_type_allowlist ⟨"data.csv", 200, "text/csv"⟩ ⟨none, none⟩ (by decide)).2.1
     (by decide)⟩

/-- C7: with no token in the Session Store, `validateToken` returns
`{valid:false}` and issues zero network requests, whatever the network
would have answered. -/
theorem validateToken_no_stored_token (net : NetResult Unit) :
    validateToken none net = (.ok ⟨false⟩, 0) :=
  rfl

/-- C8: submitting with code that trims to empty and no attached file sets
the validation error, performs zero network calls, and leaves the task
list (and every other state cell) unchanged. -/
theorem handleSubmit_empty_no_network (st : SubmitState) (net : SubmitNet)
    (hcode : jsTrim st.code = "") (hfile : st.file = none) :
    handleSubmit st net
      = ({ st with error := some "Please provide JavaScript code or attach a file" }, 0) ∧
    (handleSubmit st net).1.tasks = st.tasks := by
  have h : handleSubmit st net
      = ({ st with error := some "Please provide JavaScript code or attach a file" }, 0) := by
    rw [handleSubmit, if_pos (by simp [hcode, hfile])]
  exact ⟨h, by rw [h]⟩

/-- Witness for C8: whitespace-only code with no file at a concrete state
produces the validation error with zero fetches and an unchanged (empty)
task list. -/
theorem handleSubmit_empty_no_network_witness :
    handleSubmit ⟨"  ", none, none, [], false⟩ (.netError "x")
      = (⟨"  ", none, some "Please provide JavaScript code or attach a file", [], false⟩, 0) :=
  (handleSubmit_empty_no_network ⟨"  ", none, none, [], false⟩ (.netError "x")
    (by decide) rfl).1

/-- C9: on every successful submission the new task list is exactly the
returned task prepended to the previous list: all previous entries remain,
unchanged and in order, with one new entry at the front. -/
theorem handleSubmit_prepends (st : SubmitState) (net : SubmitNet) (task : Task) (n : Nat)
    (hvalid : ¬(jsTrim st.code = "" ∧ st.file = none))
    (hok : submitTask st.code st.file net = (.ok task, n)) :
    (handleSubmit st net).1.tasks = task :: st.tasks := by
  have hcond : (decide (jsTrim st.code = "") && st.file.isNone) = false := by
    rcases not_and_or.mp hvalid with h | h
    · simp [h]
    · have : st.file.isNone = false := by
        cases hf : st.file
        · exact absurd hf h
        · rfl
      simp [this]
  rw [handleSubmit]
  simp only [hcond, Bool.false_eq_true, if_false, hok]

/-- Witness for C9: a successful submission from a one-task list yields a
two-task list with the returned task at the front and the old task intact
behind it. -/
theorem handleSubmit_prepends_witness :
    (handleSubmit ⟨"x", none, none, [⟨"old", .completed, "c", none, none, none, "t0"⟩], false⟩
        (.okReply ⟨"new", .pending, "x", none, none, none, "t1"⟩)).1.tasks
      = [⟨"new", .pending, "x", none, none, none, "t1"⟩,
         ⟨"old", .completed, "c", none, none, none, "t0"⟩] :=
  handleSubmit_prepends
    ⟨"x", none, none, [⟨"old", .completed, "c", none, none, none, "t0"⟩], false⟩
    (.okReply ⟨"new", .pending, "x", none, none, none, "t1"⟩)
    ⟨"new", .pending, "x", none, none, none, "t1"⟩ 1
    (by decide) rfl

end SpaceSync
